import Mathlib

/-!
Verification development for the data-collector repository.

The definitions below are shallow embeddings, translated from the Python
source under src/: the cleaners (base, Wikipedia, PubMed, file), the
topic tagger, the URL router, the cleaner factory, the file validation
step, the Collection model and the script pipeline.  Python strings are
modelled as List Char / String, Python dicts as insertion-ordered
association lists, fallible Python code as Except, and the regular
expression passes of the cleaners as an explicit backtracking matcher
over an abstract syntax of the exact patterns appearing in the source.
-/

namespace DataCollector

/-! ### Python character predicates

Membership of a character in the classes used by the source regexes.
Python's re module is Unicode-aware; the inputs handled in this
development are ASCII, so the ASCII portions of the classes are modelled
(plus the specific non-ASCII characters the source mentions).  -/

/-- Python regex class value of a space: characters matched by the regex
class used by the source (ASCII whitespace). -/
def pySpace (c : Char) : Bool :=
  c = ' ' || c = '\t' || c = '\n' || c = '\r' || c = '\x0b' || c = '\x0c'

/-- Characters matched by the regex digit class (ASCII digits). -/
def pyDigit (c : Char) : Bool :=
  '0' ≤ c && c ≤ '9'

/-- Characters matched by the regex word class (ASCII letters, digits,
underscore); used by the word-boundary assertion. -/
def pyWord (c : Char) : Bool :=
  ('a' ≤ c && c ≤ 'z') || ('A' ≤ c && c ≤ 'Z') || pyDigit c || c = '_'

/-- ASCII lower-casing of one character, as str.lower acts on ASCII. -/
def lowerCh (c : Char) : Char :=
  if 'A' ≤ c && c ≤ 'Z' then Char.ofNat (c.toNat + 32) else c

/-- ASCII upper-casing of one character. -/
def upperCh (c : Char) : Char :=
  if 'a' ≤ c && c ≤ 'z' then Char.ofNat (c.toNat - 32) else c

/-- ASCII lower-casing of a string, modelling str.lower on ASCII text. -/
def lowerStr (s : String) : String :=
  String.mk (s.data.map lowerCh)

/-! ### List-of-character utilities (Python str primitives) -/

/-- Does the second list start with the first one?  Used to model
anchored literal matching and str.startswith-style checks. -/
def headEq : List Char → List Char → Bool
  | [], _ => true
  | _ :: _, [] => false
  | c :: cs, d :: ds => c = d && headEq cs ds

/-- Is pat a contiguous sublist of s?  Models the Python test of a
string containing another (the in operator on str). -/
def subStr : List Char → List Char → Bool
  | _, [] => false
  | pat, s@(_ :: rest) => headEq pat s || subStr pat rest

/-- The slice s[a:b] of a character list. -/
def slice (s : List Char) (a b : Nat) : List Char :=
  (s.drop a).take (b - a)

/-- Python str.replace: replace every non-overlapping occurrence of pat
by rep, scanning left to right.  The first argument is fuel (the length
of the scanned text suffices). -/
def replaceGo (pat rep : List Char) : Nat → List Char → List Char
  | 0, s => s
  | _, [] => []
  | Nat.succ n, s@(c :: rest) =>
    if pat ≠ [] && headEq pat s then
      rep ++ replaceGo pat rep n (s.drop pat.length)
    else
      c :: replaceGo pat rep n rest

/-- Python str.replace on character lists. -/
def replaceAll (s pat rep : List Char) : List Char :=
  replaceGo pat rep s.length s

/-- Python str.strip (with no argument): drop leading and trailing
whitespace. -/
def pyStrip (s : List Char) : List Char :=
  ((s.dropWhile pySpace).reverse.dropWhile pySpace).reverse

/-! ### A backtracking regular-expression matcher

Abstract syntax for the exact patterns appearing in the source, with
Python's backtracking semantics: alternatives are tried left to right,
greedy repetitions prefer longer matches, lazy ones shorter; groups
capture spans; backreferences re-match the captured span; lookarounds
are zero-width.  The matcher is written in continuation-passing style
and consumes fuel on every step, returning none when fuel runs out, so
a successful evaluation is never an artifact of a fuel bound. -/

inductive RE where
  | eps : RE
  | ch (c : Char) : RE
  | cls (f : Char → Bool) : RE
  | seqP (a b : RE) : RE
  | alt (a b : RE) : RE
  | rep (r : RE) (lo : Nat) (hi : Option Nat) (lazy : Bool) : RE
  | grp (idx : Nat) (r : RE) : RE
  | backref (idx : Nat) : RE
  | look (r : RE) : RE
  | lookPrevNl : RE
  | atEnd : RE
  | dollar : RE
  | wordB : RE

/-- Capture list: group index paired with the span it matched. -/
abbrev Caps := List (Nat × Nat × Nat)

/-- Record a capture, overwriting an earlier span for the same group. -/
def setCap (caps : Caps) (n a b : Nat) : Caps :=
  (n, a, b) :: caps.filter (fun t => t.1 ≠ n)

/-- Look up the span captured by a group. -/
def getCap (caps : Caps) (n : Nat) : Option (Nat × Nat) :=
  (caps.find? (fun t => t.1 = n)).map (fun t => t.2)

/-- Character comparison under an optional ignore-case flag. -/
def chEq (ic : Bool) (a b : Char) : Bool :=
  if ic then lowerCh a = lowerCh b else a = b

/-- Class test under an optional ignore-case flag: with the flag set a
character is accepted when any of its case variants is. -/
def clsTest (ic : Bool) (f : Char → Bool) (c : Char) : Bool :=
  if ic then f c || f (lowerCh c) || f (upperCh c) else f c

/-- Prefix comparison under the ignore-case flag, for backreferences. -/
def headEqIc (ic : Bool) : List Char → List Char → Bool
  | [], _ => true
  | _ :: _, [] => false
  | c :: cs, d :: ds => chEq ic c d && headEqIc ic cs ds

mutual

/-- One backtracking matching step.  s is the whole subject, i the
current position, k the continuation receiving the position and the
captures after the node.  Failure is none; the first success in
Python's backtracking order is returned. -/
def matchRe (ic : Bool) (s : List Char) :
    Nat → RE → Nat → Caps → (Nat → Caps → Option (Nat × Caps)) →
    Option (Nat × Caps)
  | 0, _, _, _, _ => none
  | Nat.succ fl, re, i, caps, k =>
    match re with
    | .eps => k i caps
    | .ch c =>
      match s.get? i with
      | some d => if chEq ic c d then k (i + 1) caps else none
      | none => none
    | .cls f =>
      match s.get? i with
      | some d => if clsTest ic f d then k (i + 1) caps else none
      | none => none
    | .seqP a b =>
      matchRe ic s fl a i caps (fun j caps2 => matchRe ic s fl b j caps2 k)
    | .alt a b =>
      match matchRe ic s fl a i caps k with
      | some r => some r
      | none => matchRe ic s fl b i caps k
    | .rep r lo hi lazy => matchRepP ic s fl r lo hi lazy 0 i caps k
    | .grp n r =>
      matchRe ic s fl r i caps (fun j caps2 => k j (setCap caps2 n i j))
    | .backref n =>
      match getCap caps n with
      | none => none
      | some (a, b) =>
        if headEqIc ic (slice s a b) (s.drop i) then k (i + (b - a)) caps
        else none
    | .look r =>
      match matchRe ic s fl r i caps (fun j caps2 => some (j, caps2)) with
      | some _ => k i caps
      | none => none
    | .lookPrevNl =>
      match i with
      | 0 => none
      | Nat.succ p => if s.get? p = some '\n' then k i caps else none
    | .atEnd => if i = s.length then k i caps else none
    | .dollar =>
      if i = s.length || (i + 1 = s.length && s.get? i = some '\n') then
        k i caps
      else none
    | .wordB =>
      let before := match i with
        | 0 => false
        | Nat.succ p => match s.get? p with
          | some c => pyWord c
          | none => false
      let after := match s.get? i with
        | some c => pyWord c
        | none => false
      if before ≠ after then k i caps else none

/-- Repetition loop shared by greedy and lazy quantifiers: below lo more
iterations are forced; then the greedy form tries a further iteration
before yielding to the continuation, the lazy form the other way round.
An iteration that consumes nothing is not repeated. -/
def matchRepP (ic : Bool) (s : List Char) :
    Nat → RE → Nat → Option Nat → Bool → Nat → Nat → Caps →
    (Nat → Caps → Option (Nat × Caps)) → Option (Nat × Caps)
  | 0, _, _, _, _, _, _, _, _ => none
  | Nat.succ fl, r, lo, hi, lazy, count, i, caps, k =>
    let canMore := match hi with
      | none => true
      | some h => count < h
    let more :=
      matchRe ic s fl r i caps (fun j caps2 =>
        if j = i then none
        else matchRepP ic s fl r lo hi lazy (count + 1) j caps2 k)
    if count < lo then more
    else if lazy then
      match k i caps with
      | some res => some res
      | none => if canMore then more else none
    else
      match (if canMore then more else none) with
      | some res => some res
      | none => k i caps

end

/-- Fuel handed to every matching attempt; large enough that the
matcher never runs dry on the texts of this development (a run that
would exhaust it yields none, which the pipelines propagate). -/
def matchFuel : Nat := 100000

/-- Try to match re at position j of s, returning the end position and
the captures of the first (leftmost-biased) success. -/
def matchAt (ic : Bool) (re : RE) (s : List Char) (j : Nat) :
    Option (Nat × Caps) :=
  matchRe ic s matchFuel re j [] (fun e caps => some (e, caps))

/-- Leftmost match search from position j, as the re module performs it
for match scanning: positions are tried in increasing order. -/
def findFrom (ic : Bool) (re : RE) (s : List Char) :
    Nat → Nat → Option (Nat × Nat × Caps)
  | 0, _ => none
  | Nat.succ fl, j =>
    if j > s.length then none
    else
      match matchAt ic re s j with
      | some (e, caps) => some (j, e, caps)
      | none => findFrom ic re s fl (j + 1)

/-- A replacement template: receives the subject, the span of the whole
match and the captures, and yields the replacement text. -/
abbrev Tpl := List Char → Nat → Nat → Caps → List Char

/-- The text captured by group n (empty for an unmatched group). -/
def capTxt (s : List Char) (caps : Caps) (n : Nat) : List Char :=
  match getCap caps n with
  | some (a, b) => slice s a b
  | none => []

/-- The scanning loop of re.sub: copy the text up to each match, emit
the template instead of the match, resume at the match end (advancing
one character past an empty match, as the re module does), and stop
after cnt replacements when a count is given. -/
def subGo (ic : Bool) (re : RE) (tpl : Tpl) (s : List Char)
    (cnt : Option Nat) : Nat → Nat → Option (List Char)
  | 0, _ => none
  | Nat.succ fl, pos =>
    match cnt with
    | some 0 => some (s.drop pos)
    | _ =>
      match findFrom ic re s (s.length + 1 - pos) pos with
      | none => some (s.drop pos)
      | some (a, e, caps) =>
        let cnt2 := cnt.map (fun n => n - 1)
        if e = a then
          match s.get? a with
          | some c =>
            (subGo ic re tpl s cnt2 fl (a + 1)).map
              (fun rest => slice s pos a ++ tpl s a e caps ++ c :: rest)
          | none => some (slice s pos a ++ tpl s a e caps)
        else
          (subGo ic re tpl s cnt2 fl e).map
            (fun rest => slice s pos a ++ tpl s a e caps ++ rest)

/-- re.sub with a template, an ignore-case flag and an optional count. -/
def subRe (ic : Bool) (re : RE) (tpl : Tpl) (cnt : Option Nat)
    (s : List Char) : Option (List Char) :=
  subGo ic re tpl s cnt (s.length + 1) 0

/-- A constant replacement text as a template. -/
def tplConst (t : List Char) : Tpl := fun _ _ _ _ => t

/-! ### Pattern constructors mirroring the source regex syntax -/

/-- A literal sequence of characters. -/
def lit (t : String) : RE :=
  t.data.foldr (fun c acc => RE.seqP (RE.ch c) acc) RE.eps

/-- Concatenation of a list of nodes. -/
def cat (l : List RE) : RE :=
  l.foldr RE.seqP RE.eps

/-- Alternation over a non-empty list of nodes. -/
def altL : List RE → RE
  | [] => RE.eps
  | [r] => r
  | r :: rest => RE.alt r (altL rest)

/-- The class of a whitespace character. -/
def wsC : RE := RE.cls pySpace

/-- Zero or more whitespace characters, greedy. -/
def wsStar : RE := RE.rep wsC 0 none false

/-- One or more whitespace characters, greedy. -/
def wsPlus : RE := RE.rep wsC 1 none false

/-- The dot outside DOTALL mode: any character except a newline. -/
def dotNoNl : RE := RE.cls (fun c => c ≠ '\n')

/-- The dot under DOTALL: any character. -/
def dotAll : RE := RE.cls (fun _ => true)

/-- A lazy zero-or-more repetition of the plain dot, the shape of the
group in the header patterns. -/
def dotStarLazy : RE := RE.rep dotNoNl 0 none true

/-- A run of at least n equals signs, greedy. -/
def eqRun (n : Nat) : RE := RE.rep (RE.ch '=') n none false

/-! ### WikipediaCleaner._clean_wikipedia_text

Each pattern below transcribes one regex of the source, in source
order; the pipeline then sequences them exactly as the method does. -/

/-- Pre-clean pattern for malformed headers with trailing equals. -/
def preCleanPat : RE :=
  cat [RE.grp 1 (cat [RE.ch '=', eqRun 1]), wsStar, RE.grp 2 dotStarLazy,
    wsStar, RE.backref 1, RE.rep (RE.cls (fun c => c = '\r' || c = '\n')) 1 none false,
    RE.ch '=', RE.dollar]

/-- Section-header preservation pattern. -/
def headerPat : RE :=
  cat [lit "==", RE.grp 1 (eqRun 0), wsStar, RE.grp 2 dotStarLazy,
    wsStar, RE.backref 1, lit "=="]

/-- Display-math preservation pattern. -/
def displayMathPat : RE :=
  cat [RE.ch '{', RE.ch '\\', lit "displaystyle",
    RE.rep (RE.cls (fun c => c ≠ '}')) 1 none false, RE.ch '}']

/-- Inline-math preservation pattern. -/
def inlineMathPat : RE :=
  cat [RE.ch '$', RE.rep (RE.cls (fun c => c ≠ '$')) 1 none false, RE.ch '$']

/-- Unwanted-section removal pattern for one section name: the header
through everything up to the next header or the end of text (the dot
runs under DOTALL here). -/
def sectionPat (nm : String) : RE :=
  cat [RE.grp 1 (cat [lit "==", wsStar, lit nm, wsStar, lit "=="]),
    RE.rep dotAll 0 none true, RE.look (RE.alt (lit "==") RE.atEnd)]

/-- Numeric citation marker pattern. -/
def citationPat : RE :=
  cat [RE.ch '[', RE.rep (RE.cls pyDigit) 1 none false, RE.ch ']']

/-- One locator character of the page/section locator pattern. -/
def locatorCls : RE :=
  RE.cls (fun c => pyDigit c || c = '§' || c = ',' || c = '–')

/-- Page/section locator suffix pattern. -/
def locatorPat : RE :=
  cat [wsStar, RE.ch ':', wsStar, RE.rep locatorCls 1 none false,
    RE.rep (cat [wsStar, RE.ch ':', wsStar, RE.rep locatorCls 1 none false])
      0 none false]

/-- Whitespace-before-punctuation pattern. -/
def punctPat : RE :=
  cat [wsPlus, RE.grp 1 (RE.cls (fun c =>
    c = '.' || c = ',' || c = ';' || c = ':' || c = '!' || c = '?'))]

/-- Whitespace-after-open-paren pattern. -/
def parenLPat : RE := cat [RE.ch '(', wsPlus]

/-- Whitespace-before-close-paren pattern. -/
def parenRPat : RE := cat [wsPlus, RE.ch ')']

/-- Section-header normalization pattern. -/
def hdrNormPat : RE :=
  cat [RE.grp 1 (cat [RE.ch '=', eqRun 1]), wsStar, RE.grp 2 dotStarLazy,
    wsStar, RE.backref 1]

/-- Asymmetric-header pattern (the replacement is a function). -/
def asymPat : RE :=
  cat [RE.grp 1 (eqRun 2), wsStar, RE.grp 2 dotStarLazy, wsStar,
    RE.grp 3 (eqRun 1)]

/-- Malformed-header pattern with a following equals sign. -/
def malformedPat : RE :=
  cat [RE.grp 1 (cat [RE.ch '=', eqRun 1]), wsStar, RE.grp 2 dotStarLazy,
    wsStar, RE.backref 1, wsStar, RE.ch '\n', wsStar, RE.ch '=']

/-- Header-then-nonblank pattern that forces a blank line. -/
def hdrSpacingPat : RE :=
  cat [RE.grp 1 (cat [eqRun 2, dotStarLazy, eqRun 2]),
    RE.grp 2 (RE.cls (fun c => c ≠ '\n'))]

/-- Standalone equals-sign pattern between newlines. -/
def loneEqPat : RE :=
  cat [RE.lookPrevNl, RE.ch '=', RE.look (cat [wsStar, RE.ch '\n'])]

/-- Three-or-more newlines pattern. -/
def newlinesPat : RE := RE.rep (RE.ch '\n') 3 none false

/-- The template of the header rewrites: group 1, space, group 2,
space, group 1. -/
def tplHdr : Tpl := fun s _ _ caps =>
  capTxt s caps 1 ++ ' ' :: capTxt s caps 2 ++ ' ' :: capTxt s caps 1

/-- The template keeping only group 1. -/
def tplG1 : Tpl := fun s _ _ caps => capTxt s caps 1

/-- The template of the asymmetric-header lambda: rewrite only when the
closing run differs in length from the opening one, else keep the whole
match. -/
def tplAsym : Tpl := fun s a e caps =>
  if (capTxt s caps 3).length ≠ (capTxt s caps 1).length then
    capTxt s caps 1 ++ ' ' :: capTxt s caps 2 ++ ' ' :: capTxt s caps 1
  else slice s a e

/-- The template inserting a blank line after a header. -/
def tplHdrNl : Tpl := fun s _ _ caps =>
  capTxt s caps 1 ++ '\n' :: '\n' :: capTxt s caps 2

/-- The placeholder key the preserve helper builds from its counter. -/
def presKey (n : Nat) : List Char :=
  ("||PRESERVED_" ++ Nat.repr n ++ "||").data

/-- The scanning loop of the preserve helper: like re.sub but the
replacement function stores each whole match under a fresh placeholder
key and substitutes the key. -/
def subPresGo (re : RE) (s : List Char) :
    Nat → Nat → Nat → List (List Char × List Char) →
    Option (List Char × Nat × List (List Char × List Char))
  | 0, _, _, _ => none
  | Nat.succ fl, pos, cnt, acc =>
    match findFrom false re s (s.length + 1 - pos) pos with
    | none => some (s.drop pos, cnt, acc)
    | some (a, e, _) =>
      let key := presKey cnt
      let acc2 := acc ++ [(key, slice s a e)]
      if e = a then
        match s.get? a with
        | some c =>
          (subPresGo re s fl (a + 1) (cnt + 1) acc2).map
            (fun r => (slice s pos a ++ key ++ c :: r.1, r.2))
        | none => some (slice s pos a ++ key, cnt + 1, acc2)
      else
        (subPresGo re s fl e (cnt + 1) acc2).map
          (fun r => (slice s pos a ++ key ++ r.1, r.2))

/-- The preserve helper of the source: substitute every match of the
pattern by a numbered placeholder, extending the preserved map. -/
def subPres (re : RE) (s : List Char) (cnt : Nat)
    (acc : List (List Char × List Char)) :
    Option (List Char × Nat × List (List Char × List Char)) :=
  subPresGo re s (s.length + 1) 0 cnt acc

/-- Lookup in the preserved map (keys are unique by construction). -/
def assocGet (m : List (List Char × List Char)) (k : List Char) :
    List Char :=
  match m.find? (fun kv => kv.1 = k) with
  | some kv => kv.2
  | none => []

/-- The unwanted section names, in the order the source removes them. -/
def unwantedSectionNames : List String :=
  ["See also", "References", "Further reading", "External links", "Notes"]

/-- The invisible characters stripped by the source. -/
def invisibleChars : List Char :=
  ['⁡', '​', '‌', '‍', '‎', '‏', '﻿']

/-- Steps 0-2 of the method: the pre-clean rewrite, line-ending
normalization, paragraph-break protection and the three preservation
passes, then restoring the header placeholders so the section removal
can see them.  Returns the text, the preserved map and the keys of the
restored (header) placeholders. -/
def wikiProtect (t0 : List Char) :
    Option (List Char × List (List Char × List Char) × List (List Char)) := do
  let t ← subRe false preCleanPat tplHdr none t0
  let t := replaceAll t "\r\n".data "\n".data
  let t := replaceAll t "\n\n".data "||PARA||".data
  let pr1 ← subPres headerPat t 0 []
  let pr2 ← subPres displayMathPat pr1.1 pr1.2.1 pr1.2.2
  let pr3 ← subPres inlineMathPat pr2.1 pr2.2.1 pr2.2.2
  let t := pr3.1
  let pres := pr3.2.2
  let sectionKeys :=
    (pres.filter (fun kv => subStr "==".data kv.2)).map (fun kv => kv.1)
  let t := sectionKeys.foldl (fun acc k => replaceAll acc k (assocGet pres k)) t
  some (t, pres, sectionKeys)

/-- Steps 2-4 of the method: unwanted-section removal, citation and
locator stripping, whitespace collapsing and invisible-character
removal. -/
def wikiStrip (t0 : List Char) : Option (List Char) := do
  let t ← unwantedSectionNames.foldlM
    (fun acc nm => subRe false (sectionPat nm) (tplConst []) none acc) t0
  let t ← subRe false citationPat (tplConst []) none t
  let t ← subRe false locatorPat (tplConst []) none t
  let t ← subRe false wsPlus (tplConst " ".data) none t
  some (invisibleChars.foldl (fun acc c => replaceAll acc [c] []) t)

/-- Step 5 of the method: restore the paragraph breaks and every
preserved span whose key was not already consumed by section
handling. -/
def wikiRestore (pres : List (List Char × List Char))
    (sectionKeys : List (List Char)) (t0 : List Char) : List Char :=
  let t := replaceAll t0 "||PARA||".data "\n\n".data
  pres.foldl
    (fun acc kv =>
      if sectionKeys.contains kv.1 then acc else replaceAll acc kv.1 kv.2) t

/-- Step 6 of the method: punctuation spacing, header renormalization,
newline collapsing and the final strip. -/
def wikiFinal (t0 : List Char) : Option String := do
  let t ← subRe false punctPat tplG1 none t0
  let t ← subRe false parenLPat (tplConst "(".data) none t
  let t ← subRe false parenRPat (tplConst ")".data) none t
  let t ← subRe false hdrNormPat tplHdr none t
  let t ← subRe false asymPat tplAsym none t
  let t ← subRe false malformedPat tplHdr none t
  let t ← subRe false hdrSpacingPat tplHdrNl none t
  let t ← subRe false loneEqPat (tplConst []) none t
  let t ← subRe false newlinesPat (tplConst "\n\n".data) none t
  some (String.mk (pyStrip t))

/-- WikipediaCleaner._clean_wikipedia_text: the full normalization
pipeline over the article text, step for step in source order.  The
value none only arises from fuel exhaustion in the matcher and never
does on the inputs considered here. -/
def cleanWikipediaText (text : String) : Option String :=
  if text.data = [] then some "" else do
    let pr ← wikiProtect text.data
    let t ← wikiStrip pr.1
    wikiFinal (wikiRestore pr.2.1 pr.2.2 t)

/-! ### Python values and dictionaries

The cleaner interfaces move Python dicts around; they are modelled as
insertion-ordered association lists over a small value universe, and
the fallible operations (indexing, membership, attribute calls) return
Except. -/

inductive PyVal where
  | vnone : PyVal
  | vbool (b : Bool) : PyVal
  | vint (n : Int) : PyVal
  | vstr (s : String) : PyVal
  | vlist (xs : List PyVal) : PyVal
  | vdict (m : List (String × PyVal)) : PyVal

/-- A Python dict body: insertion-ordered, unique keys. -/
abbrev Dict := List (String × PyVal)

/-- dict.get with no default: the value under a key, if present (keys
are unique, so the first hit is the binding). -/
def dGet : Dict → String → Option PyVal
  | [], _ => none
  | kv :: rest, k => if kv.1 = k then some kv.2 else dGet rest k

/-- The in operator on a dict (key membership). -/
def dMem (m : Dict) (k : String) : Bool :=
  (dGet m k).isSome

/-- dict.get with a default value. -/
def dGetD (m : Dict) (k : String) (v : PyVal) : PyVal :=
  (dGet m k).getD v

/-- dict item assignment: an existing key keeps its position and takes
the new value, a new key is appended at the end. -/
def dSet : Dict → String → PyVal → Dict
  | [], k, v => [(k, v)]
  | kv :: rest, k, v =>
    if kv.1 = k then (k, v) :: rest else kv :: dSet rest k v

mutual

/-- Structural value equality, as the Python equality operator
compares the values of this universe. -/
def pyBeq : PyVal → PyVal → Bool
  | .vnone, .vnone => true
  | .vbool a, .vbool b => a == b
  | .vint a, .vint b => a == b
  | .vstr a, .vstr b => a == b
  | .vlist xs, .vlist ys => pyBeqList xs ys
  | .vdict m, .vdict n => pyBeqDict m n
  | _, _ => false

/-- Elementwise equality of value lists. -/
def pyBeqList : List PyVal → List PyVal → Bool
  | [], [] => true
  | x :: xs, y :: ys => pyBeq x y && pyBeqList xs ys
  | _, _ => false

/-- Entrywise equality of dict bodies. -/
def pyBeqDict : List (String × PyVal) → List (String × PyVal) → Bool
  | [], [] => true
  | kv :: xs, lw :: ys =>
    kv.1 == lw.1 && pyBeq kv.2 lw.2 && pyBeqDict xs ys
  | _, _ => false

end

/-- Python truthiness of a value, as bool applies it. -/
def pyTruthy : PyVal → Bool
  | .vnone => false
  | .vbool b => b
  | .vint n => n != 0
  | .vstr s => s != ""
  | .vlist xs => !xs.isEmpty
  | .vdict m => !m.isEmpty

/-- The Python or operator: the left value when truthy, else the
right one. -/
def pyOr (a b : PyVal) : PyVal :=
  if pyTruthy a then a else b

/-- The in operator with a string on the left: key membership for a
dict, substring test for a string, element equality for a list, a
TypeError for anything else (None included). -/
def pyContains (v : PyVal) (k : String) : Except String Bool :=
  match v with
  | .vdict m => .ok (dMem m k)
  | .vstr s => .ok (subStr k.data s.data)
  | .vlist xs => .ok (xs.any (fun x => pyBeq x (PyVal.vstr k)))
  | _ => .error "TypeError: argument of type NoneType is not iterable"

/-- String-subscript indexing: only a dict supports it, missing keys
raise. -/
def pyIndex (v : PyVal) (k : String) : Except String PyVal :=
  match v with
  | .vdict m =>
    match dGet m k with
    | some x => .ok x
    | none => .error ("KeyError: " ++ k)
  | _ => .error "TypeError: value is not subscriptable by a string"

/-! ### BaseCleaner -/

/-- BaseCleaner.clean: run the source-specific step, then stamp
metadata.cleaned and metadata.cleaned_at.  The specific step is a
parameter (each subclass supplies its own), and the wall-clock
timestamp is passed in as now.  The stamping subscripting fails when
the specific step did not return a dict or when the metadata field
holds a non-dict value. -/
def baseCleanerClean (specific : Dict → Except String PyVal) (now : String)
    (d : Dict) : Except String Dict := do
  let v ← specific d
  match v with
  | .vdict m =>
    match dGetD m "metadata" (.vdict []) with
    | .vdict mm =>
      let mm := dSet mm "cleaned" (.vbool true)
      let mm := dSet mm "cleaned_at" (.vstr now)
      .ok (dSet m "metadata" (.vdict mm))
    | _ => .error "TypeError: item assignment on a non-dict metadata value"
  | _ => .error "TypeError: NoneType does not support item assignment"

/-- BaseCleaner.clean_specific is abstract: its body is the statement
pass, so invoking it through super() returns Python None. -/
def baseCleanerCleanSpecific (_d : Dict) : PyVal := PyVal.vnone

/-! ### WikipediaCleaner -/

/-- WikipediaCleaner.clean_specific: rewrite the content field through
the text pipeline when it is present and a string, else pass the data
through unchanged. -/
def wikiCleanSpecific (d : Dict) : Except String PyVal :=
  match dGet d "content" with
  | some (.vstr s) =>
    match cleanWikipediaText s with
    | some c => .ok (.vdict (dSet d "content" (.vstr c)))
    | none => .error "matcher fuel exhausted"
  | _ => .ok (.vdict d)

/-- The Wikipedia cleaner's clean entry point. -/
def wikiClean (now : String) (d : Dict) : Except String Dict :=
  baseCleanerClean wikiCleanSpecific now d

/-! ### PubMedCleaner -/

/-- The abstract-section label patterns of _structure_abstract, matched
with IGNORECASE. -/
def abstractSectionPats : List RE :=
  [cat [RE.grp 1 (RE.alt (lit "BACKGROUND") (lit "INTRODUCTION")), RE.ch ':'],
   cat [RE.grp 1 (RE.alt (lit "METHODS") (lit "MATERIALS AND METHODS")), RE.ch ':'],
   cat [RE.grp 1 (lit "RESULTS"), RE.ch ':'],
   cat [RE.grp 1 (altL [lit "CONCLUSION", lit "CONCLUSIONS", lit "DISCUSSION"]),
     RE.ch ':']]

/-- The template of the section-label rewrite: blank line, the label,
a colon and a newline. -/
def tplSectionLabel : Tpl := fun s _ _ caps =>
  '\n' :: '\n' :: capTxt s caps 1 ++ ':' :: '\n' :: []

/-- PubMedCleaner._structure_abstract on an arbitrary value: the data
may be anything (the caller hands it Python None), and the membership
test raises on a non-container. -/
def pubmedStructureAbstract (data : PyVal) : Except String PyVal := do
  let b ← pyContains data "content"
  if b then do
    let c ← pyIndex data "content"
    match c, data with
    | .vstr s, .vdict m =>
      match abstractSectionPats.foldlM
          (fun acc p => subRe true p tplSectionLabel none acc) s.data with
      | some t => .ok (.vdict (dSet m "content" (.vstr (String.mk t))))
      | none => .error "matcher fuel exhausted"
    | _, _ => .ok data
  else
    .ok data

/-- The abbreviation table of _clean_medical_artifacts: pattern and
expansion, in source order. -/
def medicalAbbr : List (RE × String) :=
  [(cat [RE.wordB, lit "RCT", RE.wordB], "Randomized Controlled Trial"),
   (cat [RE.wordB, lit "DOI", RE.wordB], "Digital Object Identifier"),
   (cat [RE.wordB, lit "PMID", RE.wordB], "PubMed ID")]

/-- PubMedCleaner._clean_medical_artifacts: expand only the first
occurrence of each abbreviation (count 1, IGNORECASE). -/
def pubmedCleanMedicalArtifacts (data : PyVal) : Except String PyVal := do
  let b ← pyContains data "content"
  if b then do
    let c ← pyIndex data "content"
    match c, data with
    | .vstr s, .vdict m =>
      match medicalAbbr.foldlM
          (fun acc af => subRe true af.1 (tplConst af.2.data) (some 1) acc)
          s.data with
      | some t => .ok (.vdict (dSet m "content" (.vstr (String.mk t))))
      | none => .error "matcher fuel exhausted"
    | _, _ => .ok data
  else
    .ok data

/-- PubMedCleaner.clean_specific: first the super() call — which hits
the abstract base method whose body is pass and therefore yields
Python None — then the two PubMed-specific passes on that result. -/
def pubmedCleanSpecific (d : Dict) : Except String PyVal := do
  let data := baseCleanerCleanSpecific d
  let data ← pubmedStructureAbstract data
  pubmedCleanMedicalArtifacts data

/-- The PubMed cleaner's clean entry point. -/
def pubmedClean (now : String) (d : Dict) : Except String Dict :=
  baseCleanerClean pubmedCleanSpecific now d

/-! ### FileCleaner -/

/-- FileCleaner.clean_specific: default missing content to the empty
string and missing metadata to an empty dict, strip the content, stamp
file_type and source into the metadata, and return a dict holding
exactly those two keys. -/
def fileCleanSpecific (fileType : String) (d : Dict) : Except String PyVal :=
  match dGetD d "content" (.vstr "") with
  | .vstr s =>
    match dGetD d "metadata" (.vdict []) with
    | .vdict mm =>
      let mm := dSet mm "file_type" (.vstr fileType)
      let mm := dSet mm "source" (.vstr "file_upload")
      .ok (.vdict [("content", .vstr (String.mk (pyStrip s.data))),
                   ("metadata", .vdict mm)])
    | _ => .error "TypeError: item assignment on a non-dict metadata value"
  | _ => .error "AttributeError: strip on a non-string content value"

/-- The file cleaner's clean entry point. -/
def fileClean (fileType : String) (now : String) (d : Dict) :
    Except String Dict :=
  baseCleanerClean (fileCleanSpecific fileType) now d

/-! ### Topic tagger (helpers.extract_topics) -/

/-- The closed topic-to-keywords dictionary of the source, in its
insertion order. -/
def topicsDict : List (String × List String) :=
  [("dna", ["dna", "genome", "genetic", "chromosome", "nucleotide", "gene"]),
   ("rna", ["rna", "mrna", "trna", "ribonucleic", "transcription"]),
   ("protein", ["protein", "amino acid", "peptide", "enzyme", "antibody"]),
   ("cell", ["cell", "cellular", "mitochondria", "nucleus", "organelle"]),
   ("biology", ["biology", "biological", "organism", "species", "taxonomy"]),
   ("physics", ["physics", "quantum", "relativity", "particle", "atomic"]),
   ("chemistry", ["chemistry", "chemical", "molecule", "compound", "reaction"]),
   ("math", ["math", "mathematics", "algorithm", "calculus", "equation"]),
   ("neuroscience", ["neuron", "brain", "neural", "synaptic", "cognitive"]),
   ("climate", ["climate", "atmospheric", "temperature", "greenhouse", "carbon"])]

/-- helpers.extract_topics: a topic is collected when any of its
keywords occurs in the lower-cased text.  The source accumulates the
matched topic names in a set and returns them as a list in unspecified
order; the model fixes the dictionary's own order for that list. -/
def extractTopics (text : String) : List String :=
  let lower := (lowerStr text).data
  (topicsDict.filter (fun tk => tk.2.any (fun kw => subStr kw.data lower))).map
    (fun tk => tk.1)

/-! ### URL routing (helpers.is_wikipedia_url and
CollectionService._get_url_processor) -/

/-- Strip a literal prefix from a character list. -/
def dropLit : List Char → List Char → Option (List Char)
  | [], s => some s
  | _ :: _, [] => none
  | c :: cs, d :: ds => if c = d then dropLit cs ds else none

/-- Strip the anchored scheme of both URL patterns: http, an optional
s, then the separator. -/
def dropScheme (s : List Char) : Option (List Char) :=
  match dropLit "http".data s with
  | none => none
  | some r =>
    match (dropLit "s".data r).bind (dropLit "://".data) with
    | some r2 => some r2
    | none => dropLit "://".data r

/-- A lower-case ASCII letter, the class of the locale subdomain. -/
def lowAZ (c : Char) : Bool :=
  'a' ≤ c && c ≤ 'z'

/-- The tail of the Wikipedia pattern after the optional subdomains:
the literal host and path stem, then at least one non-newline
character for the dot-plus. -/
def wikiHost (r : List Char) : Bool :=
  match dropLit "wikipedia.org/wiki/".data r with
  | some (c :: _) => c ≠ '\n'
  | _ => false

/-- The Wikipedia pattern tail with its optional two-letter locale
subdomain: both alternatives of the optional group. -/
def wikiHostOpt (r : List Char) : Bool :=
  wikiHost r ||
    (match r with
     | a :: b :: '.' :: rest => lowAZ a && lowAZ b && wikiHost rest
     | _ => false)

/-- helpers.is_wikipedia_url: the anchored pattern with its optional
www and locale groups, written as the disjunction over the optional
parts. -/
def isWikipediaUrl (url : String) : Bool :=
  match dropScheme url.data with
  | none => false
  | some r =>
    wikiHostOpt r ||
      (match dropLit "www.".data r with
       | some r2 => wikiHostOpt r2
       | none => false)

/-- The tail of the PubMed article pattern: the literal host, then at
least one digit. -/
def pubmedHost (r : List Char) : Bool :=
  match dropLit "pubmed.ncbi.nlm.nih.gov/".data r with
  | some (c :: _) => pyDigit c
  | _ => false

/-- The PubMed article pattern of _get_url_processor, with its
optional www group. -/
def isPubmedUrl (url : String) : Bool :=
  match dropScheme url.data with
  | none => false
  | some r =>
    pubmedHost r ||
      (match dropLit "www.".data r with
       | some r2 => pubmedHost r2
       | none => false)

/-- The two URL processors the service constructs. -/
inductive UrlProcessor where
  | wikipedia : UrlProcessor
  | pubmed : UrlProcessor
deriving DecidableEq

/-- CollectionService._get_url_processor: Wikipedia pattern first,
then the PubMed pattern, else the constant unsupported-URL error. -/
def getUrlProcessor (url : String) : Except String UrlProcessor :=
  if isWikipediaUrl url then .ok .wikipedia
  else if isPubmedUrl url then .ok .pubmed
  else .error "Unsupported URL type"

/-- The source tag each URL processor writes into metadata.source of
its extraction result; process_url later selects the cleaner from it. -/
def processorSourceTag : UrlProcessor → String
  | .wikipedia => "wikipedia"
  | .pubmed => "pubmed"

/-! ### CleanerFactory -/

/-- The cleaner a factory call yields. -/
inductive CleanerKind where
  | wikipediaCleaner : CleanerKind
  | pubmedCleaner : CleanerKind
  | fileCleaner (fileType : String) : CleanerKind
deriving DecidableEq

/-- CleanerFactory.get_cleaner: dispatch on the lower-cased source
type; file uploads demand a truthy file type; everything else raises
the unsupported-source error carrying the offending type. -/
def getCleaner (sourceType : String) (fileType : Option String) :
    Except String CleanerKind :=
  let s := lowerStr sourceType
  if s = "wikipedia" then .ok .wikipediaCleaner
  else if s = "pubmed" then .ok .pubmedCleaner
  else if s = "file_upload" then
    match fileType with
    | some ft =>
      if ft = "" then .error "File type is required for file uploads"
      else .ok (.fileCleaner ft)
    | none => .error "File type is required for file uploads"
  else .error ("Unsupported source type: " ++ sourceType)

/-! ### File validation (FileContentProcessor) -/

/-- The two ValueError conditions of validate_file; the source message
texts (File is empty, and the size ceiling in MB) are abstracted into
constructors. -/
inductive FileValidationError where
  | emptyFile : FileValidationError
  | fileTooLarge : FileValidationError
deriving DecidableEq

/-- The default size ceiling set in FileContentProcessor.__init__. -/
def defaultMaxFileSize : Nat := 10 * 1024 * 1024

/-- FileContentProcessor.validate_file: an empty file is rejected
first, then one over the configured ceiling. -/
def validateFile (maxFileSize size : Nat) : Except FileValidationError Unit :=
  if size = 0 then .error .emptyFile
  else if size > maxFileSize then .error .fileTooLarge
  else .ok ()

/-- FileContentProcessor.process: validate, then the type-specific
parse step (a parameter here, as each subclass overrides it). -/
def fileProcessorProcess {R : Type} (maxFileSize size : Nat)
    (processFile : Except FileValidationError R) :
    Except FileValidationError R := do
  let _ ← validateFile maxFileSize size
  processFile

/-! ### ScriptProcessor -/

/-- len(s.split(newline)): one more than the newline count. -/
def countLines (s : String) : Nat :=
  (s.data.filter (fun c => c = '\n')).length + 1

/-- len(s.split()): the number of maximal non-whitespace runs. -/
def countWords (s : String) : Nat :=
  (s.data.foldl
    (fun st c =>
      if pySpace c then (st.1, false)
      else (if st.2 then st.1 else st.1 + 1, true))
    ((0 : Nat), false)).1

/-- ScriptProcessor.process: type-check the input, then return the
content unchanged together with the computed metadata. -/
def scriptProcessorProcess (v : PyVal) : Except String Dict :=
  match v with
  | .vstr s =>
    .ok [("content", .vstr s),
         ("metadata", .vdict
           [("source", .vstr "video_script"),
            ("line_count", .vint (countLines s)),
            ("word_count", .vint (countWords s)),
            ("scientific_topics", .vlist ((extractTopics s).map PyVal.vstr))])]
  | _ => .error "TypeError: Input must be a string containing script content"

/-! ### Collection and CollectionService.process_script -/

/-- The persisted Collection entity; every field may receive an
arbitrary value through keyword spreading, so all fields are PyVal. -/
structure Collection where
  id : PyVal
  title : PyVal
  content : PyVal
  url : PyVal
  scientific_topics : PyVal
  metadata : PyVal
  created_at : PyVal

/-- Collection.__init__ with the wall clock passed as now: the or
defaults of the source applied to topics, metadata and creation
time. -/
def collectionInit (now id title content url scientific_topics metadata
    created_at : PyVal) : Collection :=
  Collection.mk id title content url
    (pyOr scientific_topics (.vlist []))
    (pyOr metadata (.vdict []))
    (pyOr created_at now)

/-- CollectionService.process_script up to the Collection it builds:
the constructor receives title and content, the literal empty topics
list, and the caller metadata spread as keyword arguments — which
raises when the metadata is None (spreading a non-mapping) or contains
a key that is not a constructor parameter or collides with one already
bound. -/
def processScript (now : PyVal) (content title : String)
    (metadata : Option Dict) : Except String Collection :=
  match metadata with
  | none => .error "TypeError: argument after ** must be a mapping"
  | some m =>
    if m.any (fun kv =>
        kv.1 = "title" || kv.1 = "content" || kv.1 = "scientific_topics") then
      .error "TypeError: got multiple values for a keyword argument"
    else if m.any (fun kv =>
        !(kv.1 = "metadata" || kv.1 = "url" || kv.1 = "id" ||
          kv.1 = "created_at")) then
      .error "TypeError: an unexpected keyword argument"
    else
      .ok (collectionInit now (dGetD m "id" .vnone) (.vstr title)
        (.vstr content) (dGetD m "url" .vnone) (.vlist [])
        (dGetD m "metadata" .vnone) (dGetD m "created_at" .vnone))

/-! ## Supporting lemmas -/

theorem dGet_dSet_self (m : Dict) (k : String) (v : PyVal) :
    dGet (dSet m k v) k = some v := by
  induction m with
  | nil => simp [dSet, dGet]
  | cons kv rest ih =>
    by_cases h : kv.1 = k
    · simp [dSet, dGet, h]
    · simp [dSet, dGet, h, ih]

theorem dGet_dSet_ne (m : Dict) (k k2 : String) (v : PyVal)
    (h : k2 ≠ k) : dGet (dSet m k v) k2 = dGet m k2 := by
  induction m with
  | nil => simp [dSet, dGet, Ne.symm h]
  | cons kv rest ih =>
    by_cases hk : kv.1 = k
    · simp [dSet, dGet, hk, Ne.symm h]
    · by_cases hk2 : kv.1 = k2
      · simp [dSet, dGet, hk, hk2, h]
      · simp [dSet, dGet, hk, hk2, ih]

theorem dropLit_some_eq (p : List Char) :
    ∀ r x, dropLit p r = some x → r = p ++ x := by
  induction p with
  | nil =>
    intro r x h
    simp [dropLit] at h
    simp [h]
  | cons c cs ih =>
    intro r x h
    cases r with
    | nil => simp [dropLit] at h
    | cons d ds =>
      by_cases hc : c = d
      · subst hc
        simp [dropLit] at h
        have := ih ds x h
        simp [this]
      · simp [dropLit, hc] at h

/-- A successful PubMed-host check pins down the shape of the text:
it starts with the literal host prefix. -/
theorem pubmedHost_shape (r : List Char) (h : pubmedHost r = true) :
    ∃ x, r = "pubmed.ncbi.nlm.nih.gov/".data ++ x := by
  cases hd : dropLit "pubmed.ncbi.nlm.nih.gov/".data r with
  | none =>
    exfalso
    unfold pubmedHost at h
    rw [hd] at h
    exact Bool.noConfusion (show false = true from h)
  | some x => exact ⟨x, dropLit_some_eq _ _ _ hd⟩

/-- A PubMed-pattern URL cannot also match the Wikipedia pattern: after
the shared scheme (and optional www), one continues with pubmed. and
the other with wikipedia. or a two-letter locale, which disagree within
the first three characters. -/
theorem pubmed_not_wiki (url : String) (h : isPubmedUrl url = true) :
    isWikipediaUrl url = false := by
  unfold isPubmedUrl at h
  unfold isWikipediaUrl
  cases hs : dropScheme url.data with
  | none =>
    exfalso
    rw [hs] at h
    exact Bool.noConfusion (show false = true from h)
  | some r =>
    rw [hs] at h
    have h2 : (pubmedHost r ||
        (match dropLit "www.".data r with
         | some r2 => pubmedHost r2
         | none => false)) = true := h
    rcases (Bool.or_eq_true _ _).mp h2 with h3 | h3
    · obtain ⟨x, hx⟩ := pubmedHost_shape r h3
      subst hx
      rfl
    · cases hw : dropLit "www.".data r with
      | none =>
        exfalso
        rw [hw] at h3
        exact Bool.noConfusion (show false = true from h3)
      | some r2 =>
        rw [hw] at h3
        have h4 : pubmedHost r2 = true := h3
        obtain ⟨x, hx⟩ := pubmedHost_shape r2 h4
        subst hx
        have hr := dropLit_some_eq _ _ _ hw
        subst hr
        rfl

/-! ## The claims -/

/-- C6 (amended): a URL matching the Wikipedia pattern routes to the
Wikipedia extractor, whose source tag selects the Wikipedia cleaner; a
URL matching the PubMed article pattern routes to the PubMed extractor
and cleaner; a URL matching neither fails with the constant
unsupported-URL ValueError, whose message does not include the
offending URL. -/
theorem url_routing_amended (url : String) :
    (isWikipediaUrl url = true →
      getUrlProcessor url = .ok .wikipedia ∧
      getCleaner (processorSourceTag .wikipedia) none = .ok .wikipediaCleaner) ∧
    (isPubmedUrl url = true →
      getUrlProcessor url = .ok .pubmed ∧
      getCleaner (processorSourceTag .pubmed) none = .ok .pubmedCleaner) ∧
    (isWikipediaUrl url = false → isPubmedUrl url = false →
      getUrlProcessor url = .error "Unsupported URL type") := by
  refine ⟨fun hw => ⟨?_, rfl⟩, fun hp => ⟨?_, rfl⟩,
    fun hw hp => ?_⟩
  · simp [getUrlProcessor, hw]
  · simp [getUrlProcessor, pubmed_not_wiki url hp, hp]
  · simp [getUrlProcessor, hw, hp]

/-- C6 (counterexample to the claim as stated): an unmatched URL fails
with the constant message, which does not carry the offending
identifier. -/
theorem url_routing_counterexample :
    getUrlProcessor "http://example.com/article" = .error "Unsupported URL type" ∧
    subStr "http://example.com/article".data "Unsupported URL type".data = false := by
  exact ⟨rfl, by decide⟩

/-- C6 witness: the amended routing theorem applied at one concrete
URL of each kind. -/
theorem url_routing_amended_witness :
    isWikipediaUrl "https://en.wikipedia.org/wiki/DNA" = true ∧
    getUrlProcessor "https://en.wikipedia.org/wiki/DNA" = .ok .wikipedia ∧
    isPubmedUrl "https://pubmed.ncbi.nlm.nih.gov/12345" = true ∧
    getUrlProcessor "https://pubmed.ncbi.nlm.nih.gov/12345" = .ok .pubmed ∧
    getUrlProcessor "ftp://nowhere" = .error "Unsupported URL type" :=
  ⟨by decide,
   ((url_routing_amended "https://en.wikipedia.org/wiki/DNA").1 (by decide)).1,
   by decide,
   ((url_routing_amended "https://pubmed.ncbi.nlm.nih.gov/12345").2.1 (by decide)).1,
   (url_routing_amended "ftp://nowhere").2.2 (by decide) (by decide)⟩

/-- C7 (counterexample to the claim as stated): cleaner selection for
the script source kind does not succeed — the factory raises the
unsupported-source ValueError. -/
theorem script_cleaner_selection_counterexample :
    getCleaner "script" none = .error "Unsupported source type: script" := by
  rfl

/-- C7 (amended): the factory has no script branch, so cleaner
selection for the script kind fails with the unsupported-source error
for any file-type argument; the script pipeline instead processes a
script with no cleaner at all — ScriptProcessor.process returns the
content unchanged with computed metadata. -/
theorem script_cleaner_selection_amended (ft : Option String) (s : String) :
    getCleaner "script" ft = .error "Unsupported source type: script" ∧
    scriptProcessorProcess (.vstr s) =
      .ok [("content", .vstr s),
           ("metadata", .vdict
             [("source", .vstr "video_script"),
              ("line_count", .vint (countLines s)),
              ("word_count", .vint (countWords s)),
              ("scientific_topics", .vlist ((extractTopics s).map PyVal.vstr))])] := by
  exact ⟨rfl, rfl⟩

/-- C3: contrary to the claim, the PubMed cleaner fails on every
mapping input, optional fields present or not: its clean_specific
first calls the abstract base clean_specific, which returns Python
None, and the subsequent membership test on None raises a
TypeError. -/
theorem pubmed_cleaner_always_raises (now : String) (d : Dict) :
    pubmedClean now d =
      .error "TypeError: argument of type NoneType is not iterable" := by
  rfl

/-- C2 (counterexample to the claim as stated): for the script
"A quantum physics script" the topic tagger yields physics, yet
process_script builds the Collection with an empty topics list and with
metadata that carries no cleaned flag at all. -/
theorem process_script_counterexample :
    extractTopics "A quantum physics script" = ["physics"] ∧
    processScript (.vstr "t0") "A quantum physics script" "Title" (some []) =
      .ok (Collection.mk .vnone (.vstr "Title") (.vstr "A quantum physics script")
        .vnone (.vlist []) (.vdict []) (.vstr "t0")) ∧
    extractTopics "A quantum physics script" ≠ [] ∧
    dMem [] "cleaned" = false := by
  refine ⟨by decide, rfl, by decide, rfl⟩

/-- C2 (amended): process_script builds a Collection with a null url,
an always-empty scientific_topics list (topics are not computed from
the content) and the caller metadata passed through without any
cleaned stamp; a missing metadata mapping makes the keyword spread
raise a TypeError. -/
theorem process_script_amended (now : PyVal) (content title : String) :
    processScript now content title (some []) =
      .ok (Collection.mk .vnone (.vstr title) (.vstr content) .vnone
        (.vlist []) (.vdict []) now) ∧
    processScript now content title none =
      .error "TypeError: argument after ** must be a mapping" := by
  exact ⟨rfl, rfl⟩

/-- C9: a zero-length file is rejected as empty and a file over the
configured ceiling as too large, and in both cases the result does not
depend on the type-specific parse step, which is therefore never
reached. -/
theorem file_validation_rejects (R : Type) (maxFileSize : Nat)
    (pf : Except FileValidationError R) :
    fileProcessorProcess maxFileSize 0 pf = .error .emptyFile ∧
    (∀ size, size > maxFileSize →
      fileProcessorProcess maxFileSize size pf = .error .fileTooLarge) := by
  constructor
  · rfl
  · intro size hsz
    have h0 : size ≠ 0 := by omega
    unfold fileProcessorProcess validateFile
    rw [if_neg h0, if_pos hsz]
    rfl

/-- C9 witness: the rejection theorem at the default ceiling, size 0
and size one over the ceiling. -/
theorem file_validation_rejects_witness :
    fileProcessorProcess defaultMaxFileSize 0 (Except.ok ()) =
      .error .emptyFile ∧
    (10485761 > defaultMaxFileSize ∧
      fileProcessorProcess defaultMaxFileSize 10485761 (Except.ok ()) =
        .error .fileTooLarge) :=
  ⟨(file_validation_rejects Unit defaultMaxFileSize (Except.ok ())).1,
   by decide,
   (file_validation_rejects Unit defaultMaxFileSize (Except.ok ())).2
     10485761 (by decide)⟩

/-- C8: extract_topics is deterministic (equal texts yield equal topic
sets); any text whose lower-casing contains quantum is tagged physics;
the empty string yields the empty set. -/
theorem extract_topics_properties :
    (∀ t1 t2 : String, t1 = t2 → extractTopics t1 = extractTopics t2) ∧
    (∀ t : String, subStr "quantum".data (lowerStr t).data = true →
      "physics" ∈ extractTopics t) ∧
    extractTopics "" = [] := by
  refine ⟨fun t1 t2 h => by rw [h], fun t h => ?_, by decide⟩
  show "physics" ∈
    (topicsDict.filter
      (fun tk => tk.2.any (fun kw => subStr kw.data (lowerStr t).data))).map
      (fun tk => tk.1)
  refine List.mem_map.mpr
    ⟨("physics", ["physics", "quantum", "relativity", "particle", "atomic"]),
     List.mem_filter.mpr ⟨by decide, ?_⟩, rfl⟩
  apply List.any_eq_true.mpr
  exact ⟨"quantum", by decide, h⟩

/-- C8 witness: the tagging theorem at one concrete mixed-case text. -/
theorem extract_topics_properties_witness :
    subStr "quantum".data (lowerStr "Quantum entanglement").data = true ∧
    "physics" ∈ extractTopics "Quantum entanglement" :=
  ⟨by decide,
   extract_topics_properties.2.1 "Quantum entanglement" (by decide)⟩

/-- C10: on a record whose optional content is a string and whose
optional metadata is a dict, the file cleaner's specific step returns a
mapping of exactly the two keys content and metadata (any other input
key is dropped), with metadata.source overwritten to file_upload and
metadata.file_type to the configured type. -/
theorem file_cleaner_specific_frame (ft : String) (d : Dict)
    (hc : ∀ v, dGet d "content" = some v → ∃ s, v = PyVal.vstr s)
    (hm : ∀ v, dGet d "metadata" = some v → ∃ m, v = PyVal.vdict m) :
    ∃ c mm, fileCleanSpecific ft d =
        .ok (.vdict [("content", PyVal.vstr c), ("metadata", PyVal.vdict mm)]) ∧
      dGet mm "source" = some (PyVal.vstr "file_upload") ∧
      dGet mm "file_type" = some (PyVal.vstr ft) := by
  have hcon : ∃ s, dGetD d "content" (.vstr "") = PyVal.vstr s := by
    cases hg : dGet d "content" with
    | none => exact ⟨"", by simp [dGetD, hg]⟩
    | some v =>
      obtain ⟨s, rfl⟩ := hc v hg
      exact ⟨s, by simp [dGetD, hg]⟩
  have hmd : ∃ m, dGetD d "metadata" (.vdict []) = PyVal.vdict m := by
    cases hg : dGet d "metadata" with
    | none => exact ⟨[], by simp [dGetD, hg]⟩
    | some v =>
      obtain ⟨m, rfl⟩ := hm v hg
      exact ⟨m, by simp [dGetD, hg]⟩
  obtain ⟨s, hs⟩ := hcon
  obtain ⟨m, hmm⟩ := hmd
  refine ⟨String.mk (pyStrip s.data),
    dSet (dSet m "file_type" (.vstr ft)) "source" (.vstr "file_upload"),
    ?_, ?_, ?_⟩
  · unfold fileCleanSpecific
    rw [hs, hmm]
  · exact dGet_dSet_self _ _ _
  · rw [dGet_dSet_ne _ _ _ _ (by decide)]
    exact dGet_dSet_self _ _ _

/-- C10 witness: the frame theorem at a record with an extra key and
stale metadata values for both overwritten keys. -/
theorem file_cleaner_specific_frame_witness :
    ∃ c mm, fileCleanSpecific "pdf"
        [("content", .vstr "  body text "), ("extra", .vint 7),
         ("metadata", .vdict [("source", .vstr "old"), ("file_type", .vstr "old")])] =
        .ok (.vdict [("content", PyVal.vstr c), ("metadata", PyVal.vdict mm)]) ∧
      dGet mm "source" = some (PyVal.vstr "file_upload") ∧
      dGet mm "file_type" = some (PyVal.vstr "pdf") := by
  apply file_cleaner_specific_frame
  · intro v h
    injection h with h2
    exact ⟨_, h2.symm⟩
  · intro v h
    injection h with h2
    exact ⟨_, h2.symm⟩

/-- C4: the first-occurrence-only expansion is exactly what the
_clean_medical_artifacts pass computes on the claimed input, but the
PubMed cleaner itself never reaches that pass: clean raises a TypeError
on this very input because clean_specific starts from the None returned
by the abstract base method. -/
theorem pubmed_abbreviation_first_occurrence :
    pubmedCleanMedicalArtifacts
        (.vdict [("content", .vstr "RCT showed X. Another RCT confirmed.")]) =
      .ok (.vdict [("content",
        .vstr "Randomized Controlled Trial showed X. Another RCT confirmed.")]) ∧
    (∀ now, pubmedClean now
        [("content", .vstr "RCT showed X. Another RCT confirmed.")] =
      .error "TypeError: argument of type NoneType is not iterable") := by
  exact ⟨rfl, fun now => rfl⟩

/-- C1: Wikipedia cleaning is not idempotent: on this five-character
input the first pass emits an asymmetric-looking header line that the
second pass rewrites again, so clean (clean t) differs from clean t. -/
theorem wiki_clean_not_idempotent :
    cleanWikipediaText "===a=" = some "=== a ==\n\n=" ∧
    cleanWikipediaText "=== a ==\n\n=" = some "==  ==\n\n a ==" ∧
    ("=== a ==\n\n=" : String) ≠ "==  ==\n\n a ==" := by
  exact ⟨by decide, by decide, by decide⟩

/-- C5: on the claimed input the cleaner's output is exactly the intro
text — neither removed section name nor body survives — and each of the
five unwanted sections is removed from its header up to the next header
(which survives) or the end of text. -/
theorem wiki_section_stripping :
    cleanWikipediaText
        "Intro text\n\n== References ==\nSome refs\n\n== See also ==\nMore" =
      some "Intro text" ∧
    subStr "References".data "Intro text".data = false ∧
    subStr "See also".data "Intro text".data = false ∧
    subStr "Intro text".data "Intro text".data = true ∧
    (∀ nm ∈ unwantedSectionNames,
      cleanWikipediaText
          ("Intro text\n\n== " ++ nm ++ " ==\nbody stuff\n\n== Keep ==\nkept text")
        = some "Intro text\n\n== Keep ==\n\n kept text") := by
  exact ⟨by decide, by decide, by decide, by decide, by decide⟩

/-- C5 witness: the section-stripping theorem's family conjunct applied
at the References section. -/
theorem wiki_section_stripping_witness :
    "References" ∈ unwantedSectionNames ∧
    cleanWikipediaText
        "Intro text\n\n== References ==\nbody stuff\n\n== Keep ==\nkept text"
      = some "Intro text\n\n== Keep ==\n\n kept text" :=
  ⟨by decide, wiki_section_stripping.2.2.2.2 "References" (by decide)⟩

end DataCollector


